import Mathlib

/-!
Shallow embedding of `ml_project/train.py` (repository KernelA/made-ml-prod2):
a configuration-driven harness that builds a feature-transform + classifier
pipeline from declarative configuration, cross-validates it over the union of
the train and test data, fits it on the train split, evaluates ROC-AUC on the
test split, and persists the metric file and the pickled model.

External collaborators (pandas, scikit-learn, the filesystem) are modelled at
their interface, either as abstract functions in an `Env` record or as
executable definitions that follow their documented semantics.
-/

namespace MLProject

/-- A cell value of a tabular dataset, modelled as an exact rational. -/
abbrev Val := Rat

/-- An in-memory tabular dataset, as produced by `pandas.read_csv`:
an ordered list of column names and a list of rows. -/
structure Dataset where
  columns : List String
  rows : List (List Val)
deriving DecidableEq, Repr

/-- `pandas.DataFrame.append`: row-wise concatenation of two frames
(`union_data = train_data.append(test_data)` in `train`). -/
def dsAppend (a b : Dataset) : Dataset :=
  { columns := a.columns, rows := a.rows ++ b.rows }

/-- One entry of `FeatureTransformerConfig.transformers`: a stage name, a
qualified class name, constructor keyword parameters and the column subset
the transformer is bound to. -/
structure TransformSpec where
  stage_name : String
  classname : String
  params : List (String × String)
  columns : List String
deriving DecidableEq, Repr

/-- The feature-transform section of the configuration: an ordered list of
transform specs. -/
structure FeatureTransformerConfig where
  transformers : List TransformSpec
deriving DecidableEq, Repr

/-- The cross-validation section of the configuration
(`cfg.cross_val.scores`, `cfg.cross_val.cv`). -/
structure CrossValConfig where
  scores : List String
  cv : Nat
deriving DecidableEq, Repr

/-- The data section of the configuration. -/
structure DataConfig where
  path_to_train : String
  path_to_test : String
  unique_values_limit : Nat
  target_variable : String
deriving DecidableEq, Repr

/-- The whole `TrainConfig`.  The classifier section `cls_config` is a
structured config whose fields `dict(cfg.cls_config)` exposes as a key-value
mapping containing a `"classname"` entry plus constructor parameters; it is
modelled as that field map (an association list with distinct keys, as a
Python dict yields). -/
structure TrainConfig where
  data_config : DataConfig
  feature_transform : FeatureTransformerConfig
  cls_config : List (String × String)
  cross_val : CrossValConfig
  output_metric : String
  model_path : String
deriving DecidableEq, Repr

/-- Modelled from the spec: `get_class_type` lives in `utils.py`, which is not
under `src/`.  Per the spec's ClassResolver contract it maps a qualified type
name plus a keyword-parameter mapping to a constructed instance; the instance
is modelled as the record of the name it was resolved from and the keyword
arguments its constructor received. -/
structure Estimator where
  classname : String
  kwargs : List (String × String)
deriving DecidableEq, Repr

/-- Modelled from the spec: `get_class_type(classname)(**params)` — resolve
the class and call its constructor with the given keyword arguments. -/
def resolveAndConstruct (classname : String) (kwargs : List (String × String)) : Estimator :=
  { classname := classname, kwargs := kwargs }

/-- The `remainder` policy of `sklearn.compose.ColumnTransformer`. -/
inductive Remainder where
  | drop
  | passthrough
deriving DecidableEq, Repr

/-- One `(name, transformer, columns)` triple of a `ColumnTransformer`. -/
structure CTEntry where
  stage_name : String
  est : Estimator
  cols : List String
deriving DecidableEq, Repr

/-- `sklearn.compose.ColumnTransformer`: an ordered list of
`(name, transformer, columns)` entries plus the remainder policy. -/
structure ColumnTransformer where
  transformers : List CTEntry
  remainder : Remainder
deriving DecidableEq, Repr

/-- A top-level stage of an sklearn `Pipeline`: either the composite
feature-transform stage or the terminal classifier. -/
inductive PipelineStage where
  | featureTransform (ct : ColumnTransformer)
  | classifier (e : Estimator)
deriving DecidableEq, Repr

/-- `sklearn.pipeline.Pipeline`: the ordered list of named top-level steps. -/
structure Pipeline where
  steps : List (String × PipelineStage)
deriving DecidableEq, Repr

/-- The `ColumnTransformer([...], remainder="drop")` expression in `train`:
one entry per configured `TransformSpec`, in configured order, each resolved
from its classname, constructed with its params and bound to its columns. -/
def buildColumnTransformer (cfg : TrainConfig) : ColumnTransformer :=
  { transformers := cfg.feature_transform.transformers.map
      (fun t => { stage_name := t.stage_name
                  est := resolveAndConstruct t.classname t.params
                  cols := t.columns }),
    remainder := Remainder.drop }

/-- Python `dict.pop`: remove the entry with the given key
(`cls_params.pop("classname")` in `train`). -/
def dictPop (d : List (String × String)) (k : String) : List (String × String) :=
  d.filter (fun q => q.1 ≠ k)

/-- The classifier construction in `train`:
`cls_params = dict(cfg.cls_config); cls_params.pop("classname");
cls = get_class_type(cfg.cls_config.classname)(**cls_params)`. -/
def buildClassifier (cfg : TrainConfig) : Estimator :=
  resolveAndConstruct ((cfg.cls_config.lookup "classname").getD "")
    (dictPop cfg.cls_config "classname")

/-- The `pipeline.Pipeline([("feature_transform", column_transformers),
("cls", cls)])` expression in `train`. -/
def buildPipeline (cfg : TrainConfig) : Pipeline :=
  { steps := [("feature_transform", PipelineStage.featureTransform (buildColumnTransformer cfg)),
              ("cls", PipelineStage.classifier (buildClassifier cfg))] }

/-- Select a subset of columns of a dataset, in the given order (the column
binding a `ColumnTransformer` entry applies to its transformer's input). -/
def selectCols (d : Dataset) (cols : List String) : Dataset :=
  { columns := cols,
    rows := d.rows.map (fun r => cols.map (fun c => r.getD (d.columns.indexOf c) 0)) }

/-- The columns of a dataset not bound by any entry of a column transformer. -/
def unlistedCols (ct : ColumnTransformer) (d : Dataset) : List String :=
  d.columns.filter (fun c => ¬ c ∈ (ct.transformers.map (fun t => t.cols)).flatten)

/-- `ColumnTransformer.transform`, modelled at the interface of
scikit-learn: each `(name, transformer, columns)` entry contributes one
derived column group computed by its transformer from its bound column
subset only, in entry order; with `remainder="drop"` nothing else is
emitted, with `remainder="passthrough"` the unbound columns would be
appended raw.  The behaviour of each constructed transformer instance is
an abstract function `apply`. -/
def ctTransform (apply : Estimator → Dataset → List (List Val))
    (ct : ColumnTransformer) (d : Dataset) : List (List (List Val)) :=
  ct.transformers.map (fun t => apply t.est (selectCols d t.cols))
    ++ (match ct.remainder with
        | Remainder.drop => []
        | Remainder.passthrough => [(selectCols d (unlistedCols ct d)).rows])

/-- Error class of an evaluation whose target is degenerate (the spec's
`DataError`). -/
inductive DataErr where
  | singleClass
deriving DecidableEq, Repr

/-- Contribution of one (positive, negative) score pair to the ROC-AUC
pair count: 1 when the positive sample is ranked above the negative one,
1/2 on a tie. -/
def pairScore (p n : Val) : Val :=
  if n < p then 1 else if n = p then 1/2 else 0

/-- Numerator of the ROC-AUC statistic: total pair score over all
positive-negative pairs. -/
def aucNum (pos neg : List Val) : Val :=
  (pos.map (fun p => (neg.map (fun n => pairScore p n)).sum)).sum

/-- The scores of the positive samples of a labelled score list. -/
def posScores (yTrue : List Bool) (yScore : List Val) : List Val :=
  ((yTrue.zip yScore).filter (fun q => q.1)).map (fun q => q.2)

/-- The scores of the negative samples of a labelled score list. -/
def negScores (yTrue : List Bool) (yScore : List Val) : List Val :=
  ((yTrue.zip yScore).filter (fun q => !q.1)).map (fun q => q.2)

/-- `sklearn.metrics.roc_auc_score`, modelled at the interface of
scikit-learn for a binary target: the probability that a positive sample is
ranked above a negative one (ties counted half), equivalently the area under
the ROC curve; it raises when only one class is present in the target. -/
def rocAucScore (yTrue : List Bool) (yScore : List Val) : Except DataErr Val :=
  if (posScores yTrue yScore).length = 0 ∨ (negScores yTrue yScore).length = 0 then
    Except.error DataErr.singleClass
  else
    Except.ok (aucNum (posScores yTrue yScore) (negScores yTrue yScore) /
      (((posScores yTrue yScore).length : Val) * ((negScores yTrue yScore).length : Val)))

/-- A fitted pipeline object, as returned by `Pipeline.fit`.  Its learned
state is opaque; the model only distinguishes values. -/
structure FittedPipeline where
  base : Pipeline
  state : Nat
deriving DecidableEq, Repr

/-- Fatal error classes of a run (the spec's taxonomy, collapsed to the
classes the claims mention). -/
inductive Err where
  | io (msg : String)
  | compute (msg : String)
  | data (e : DataErr)
deriving DecidableEq, Repr

/-- The tabular result of `sklearn.model_selection.cross_validate`. -/
abbrev CVResult := List (List Val)

/-- The stages of the run lifecycle. -/
inductive Stage where
  | configLoaded
  | pipelineBuilt
  | dataLoaded
  | crossValidated
  | trained
  | evaluated
  | persisted
  | done
deriving DecidableEq, Repr

/-- The canonical lifecycle order of the run. -/
def canonicalStages : List Stage :=
  [Stage.configLoaded, Stage.pipelineBuilt, Stage.dataLoaded, Stage.crossValidated,
   Stage.trained, Stage.evaluated, Stage.persisted, Stage.done]

/-- Observable events of a run, in occurrence order: completed lifecycle
stages, dataset reads, the calls handing data to cross-validation / fit /
predict, and filesystem effects. -/
inductive Event where
  | stage (s : Stage)
  | read (path : String)
  | cvCall (pipe : Pipeline) (features : Dataset) (target : List Bool)
  | fitCall (pipe : Pipeline) (features : Dataset) (target : List Bool)
  | probaCall (fp : FittedPipeline) (features : Dataset)
  | mkdirs (dir : String)
  | fsWrite (path : String) (contents : String)
  | pickleWrite (path : String) (fp : FittedPipeline)
deriving DecidableEq, Repr

/-- The external collaborators of the run, at their interfaces:
the working directory resolver, `pandas.read_csv`, the `heat_diss`
preprocessing routines (modelled from the spec: `clean_data` and
`feature_target_split` are not under `src/`; per the spec, DataPreparer
cleans raw tabular data and splits it into a feature matrix and a target
vector — binary, so the target is a list of booleans), the scikit-learn
calls, the metric-file open/write outcome, and `dump_pickle` (modelled from
the spec: `utils.py` is not under `src/`; it serializes the fitted pipeline
to the given path, here represented by its success or failure). -/
structure Env where
  cwd : String
  readCsv : String → Except Err Dataset
  cleanData : Dataset → Nat → Dataset
  featureTargetSplit : Dataset → String → Dataset × List Bool
  crossValidate : Pipeline → Dataset → List Bool → List String → Nat → Except Err CVResult
  fitPipeline : Pipeline → Dataset → List Bool → Except Err FittedPipeline
  predictProba : FittedPipeline → Dataset → List (List Val)
  openWrite : String → Except Err Unit
  dumpPickle : String → Except Err Unit
  renderFloat : Val → String

/-- `prepare_date` in `train.py`: clean the data, then split it into a
feature matrix and the target vector. -/
def prepareDate (env : Env) (data : Dataset) (lim : Nat) (tv : String) :
    Dataset × List Bool :=
  env.featureTargetSplit (env.cleanData data lim) tv

/-- `os.path.join(hydra.utils.get_original_cwd(), p)`. -/
def joinPath (a b : String) : String := a ++ "/" ++ b

/-- The resolved path of the train CSV. -/
def trainPathOf (env : Env) (cfg : TrainConfig) : String :=
  joinPath env.cwd cfg.data_config.path_to_train

/-- The resolved path of the test CSV. -/
def testPathOf (env : Env) (cfg : TrainConfig) : String :=
  joinPath env.cwd cfg.data_config.path_to_test

/-- The resolved path of the metric output file. -/
def metricPathOf (env : Env) (cfg : TrainConfig) : String :=
  joinPath env.cwd cfg.output_metric

/-- The resolved path of the model artifact. -/
def modelPathOf (env : Env) (cfg : TrainConfig) : String :=
  joinPath env.cwd cfg.model_path

/-- The prepared (features, target) pair cross-validation receives: the
row-wise union of the train and test frames through `prepare_date`. -/
def cvPrepOf (env : Env) (cfg : TrainConfig) (td sd : Dataset) : Dataset × List Bool :=
  prepareDate env (dsAppend td sd) cfg.data_config.unique_values_limit
    cfg.data_config.target_variable

/-- The prepared (features, target) pair the final fit receives: the train
frame through `prepare_date`. -/
def trPrepOf (env : Env) (cfg : TrainConfig) (td : Dataset) : Dataset × List Bool :=
  prepareDate env td cfg.data_config.unique_values_limit cfg.data_config.target_variable

/-- The prepared (features, target) pair evaluation receives: the test frame
through `prepare_date`. -/
def tePrepOf (env : Env) (cfg : TrainConfig) (sd : Dataset) : Dataset × List Bool :=
  prepareDate env sd cfg.data_config.unique_values_limit cfg.data_config.target_variable

/-- `cls_pipeline.predict_proba(test_features)[:, 1]`: the second column
(index 1) of the class-probability matrix on the prepared test features. -/
def probaOf (env : Env) (cfg : TrainConfig) (fitted : FittedPipeline) (sd : Dataset) :
    List Val :=
  (env.predictProba fitted (tePrepOf env cfg sd).1).map (fun r => r.getD 1 0)

/-- `os.path.dirname`: everything before the last path separator. -/
def dirname (p : String) : String :=
  String.intercalate "/" ((p.splitOn "/").dropLast)

/-- Serialization of `json.dump({"ROC AUC": v}, file)`: one JSON record with
the single key `"ROC AUC"`; float rendering is abstract. -/
def jsonDumpMetric (render : Val → String) (v : Val) : String :=
  "\x7b\"ROC AUC\": " ++ render v ++ "\x7d"

/-- Trace after a failed read of the train CSV. -/
def traceReadTrainFail (env : Env) (cfg : TrainConfig) : List Event :=
  [Event.stage Stage.configLoaded, Event.stage Stage.pipelineBuilt,
   Event.read (trainPathOf env cfg)]

/-- Trace after a failed read of the test CSV. -/
def traceReadTestFail (env : Env) (cfg : TrainConfig) : List Event :=
  [Event.stage Stage.configLoaded, Event.stage Stage.pipelineBuilt,
   Event.read (trainPathOf env cfg), Event.read (testPathOf env cfg)]

/-- Trace up to and including the hand-over to cross-validation. -/
def traceCv (env : Env) (cfg : TrainConfig) (td sd : Dataset) : List Event :=
  [Event.stage Stage.configLoaded, Event.stage Stage.pipelineBuilt,
   Event.read (trainPathOf env cfg), Event.read (testPathOf env cfg),
   Event.stage Stage.dataLoaded,
   Event.cvCall (buildPipeline cfg) (cvPrepOf env cfg td sd).1 (cvPrepOf env cfg td sd).2]

/-- Trace up to and including the hand-over to the final fit. -/
def traceFit (env : Env) (cfg : TrainConfig) (td sd : Dataset) : List Event :=
  traceCv env cfg td sd ++
    [Event.stage Stage.crossValidated,
     Event.fitCall (buildPipeline cfg) (trPrepOf env cfg td).1 (trPrepOf env cfg td).2]

/-- Trace up to and including the prediction on the test split. -/
def traceEval (env : Env) (cfg : TrainConfig) (td sd : Dataset)
    (fitted : FittedPipeline) : List Event :=
  traceFit env cfg td sd ++
    [Event.stage Stage.trained, Event.probaCall fitted (tePrepOf env cfg sd).1]

/-- Trace up to and including the attempt to open the metric file. -/
def traceMetricOpen (env : Env) (cfg : TrainConfig) (td sd : Dataset)
    (fitted : FittedPipeline) : List Event :=
  traceEval env cfg td sd fitted ++
    [Event.stage Stage.evaluated, Event.mkdirs (dirname (metricPathOf env cfg))]

/-- Trace up to and including the metric-file write. -/
def traceMetricWritten (env : Env) (cfg : TrainConfig) (td sd : Dataset)
    (fitted : FittedPipeline) (auc : Val) : List Event :=
  traceMetricOpen env cfg td sd fitted ++
    [Event.fsWrite (metricPathOf env cfg) (jsonDumpMetric env.renderFloat auc)]

/-- Trace of a completed run. -/
def traceDone (env : Env) (cfg : TrainConfig) (td sd : Dataset)
    (fitted : FittedPipeline) (auc : Val) : List Event :=
  traceMetricWritten env cfg td sd fitted auc ++
    [Event.pickleWrite (modelPathOf env cfg) fitted,
     Event.stage Stage.persisted, Event.stage Stage.done]

/-- The body of `train` in `train.py` as a state machine: the value is the
computed ROC-AUC (or the first fatal error), paired with the ordered trace of
observable events.  Hydra has loaded the configuration before the body runs;
the pipeline is built first, then both CSVs are read, cross-validation runs
on the row-wise union of the two frames, the pipeline is fitted on the train
split, evaluated on the test split, and the metric file and the pickled
model are written.  Any failure aborts the remaining steps. -/
def runTrain (env : Env) (cfg : TrainConfig) : List Event × Except Err Val :=
  match env.readCsv (trainPathOf env cfg) with
  | Except.error e => (traceReadTrainFail env cfg, Except.error e)
  | Except.ok trainData =>
    match env.readCsv (testPathOf env cfg) with
    | Except.error e => (traceReadTestFail env cfg, Except.error e)
    | Except.ok testData =>
      match env.crossValidate (buildPipeline cfg) (cvPrepOf env cfg trainData testData).1
          (cvPrepOf env cfg trainData testData).2 cfg.cross_val.scores cfg.cross_val.cv with
      | Except.error e => (traceCv env cfg trainData testData, Except.error e)
      | Except.ok _ =>
        match env.fitPipeline (buildPipeline cfg) (trPrepOf env cfg trainData).1
            (trPrepOf env cfg trainData).2 with
        | Except.error e => (traceFit env cfg trainData testData, Except.error e)
        | Except.ok fitted =>
          match rocAucScore (tePrepOf env cfg testData).2 (probaOf env cfg fitted testData) with
          | Except.error de =>
              (traceEval env cfg trainData testData fitted, Except.error (Err.data de))
          | Except.ok auc =>
            match env.openWrite (metricPathOf env cfg) with
            | Except.error e =>
                (traceMetricOpen env cfg trainData testData fitted, Except.error e)
            | Except.ok _ =>
              match env.dumpPickle (modelPathOf env cfg) with
              | Except.error e =>
                  (traceMetricWritten env cfg trainData testData fitted auc, Except.error e)
              | Except.ok _ =>
                  (traceDone env cfg trainData testData fitted auc, Except.ok auc)

/-- The lifecycle stages completed by a run, in order. -/
def stagesOf (evs : List Event) : List Stage :=
  evs.filterMap (fun e => match e with | Event.stage s => some s | _ => none)

/-- A filesystem: files as a path-to-contents association (later entries
shadowed, each path present at most once) and the set of existing
directories. -/
structure FileSystem where
  files : List (String × String)
  dirs : List String
deriving DecidableEq, Repr

/-- The effect of `open(path, "w")` followed by writing `contents`: the file
is truncated and replaced, never appended to. -/
def fsSetFile (fs : FileSystem) (path contents : String) : FileSystem :=
  { fs with files := (path, contents) :: fs.files.filter (fun q => q.1 ≠ path) }

/-- `os.makedirs(d, exist_ok=True)`: create the directory if absent, succeed
silently if present. -/
def fsMakedirs (fs : FileSystem) (d : String) : FileSystem :=
  if d ∈ fs.dirs then fs else { fs with dirs := d :: fs.dirs }

/-- Read a file's contents back. -/
def fsReadFile (fs : FileSystem) (path : String) : Option String :=
  (fs.files.find? (fun q => q.1 == path)).map (fun q => q.2)

/-- Lines 95–99 of `train.py`:
`os.makedirs(os.path.dirname(metric_path), exist_ok=True)` and then
`json.dump({"ROC AUC": roc_auc_score}, file)` into `open(metric_path, "w")`. -/
def persistMetric (render : Val → String) (fs : FileSystem) (path : String)
    (v : Val) : FileSystem :=
  fsSetFile (fsMakedirs fs (dirname path)) path (jsonDumpMetric render v)

/-- Recognizer of fit hand-over events. -/
def isFitCall : Event → Bool := fun e =>
  match e with
  | Event.fitCall _ _ _ => true
  | _ => false

/-- Recognizer of model-artifact write events. -/
def isPickleWrite : Event → Bool := fun e =>
  match e with
  | Event.pickleWrite _ _ => true
  | _ => false

/-- Recognizer of metric-file write events. -/
def isFsWrite : Event → Bool := fun e =>
  match e with
  | Event.fsWrite _ _ => true
  | _ => false

/-- A small concrete dataset for concrete evaluations: one feature column
`x` and a binary target column `y`. -/
def dEx : Dataset := { columns := ["x", "y"], rows := [[1, 1], [0, 0]] }

/-- A small concrete configuration for concrete evaluations. -/
def cfgEx : TrainConfig :=
  { data_config := { path_to_train := "data/train.csv", path_to_test := "data/test.csv",
                     unique_values_limit := 10, target_variable := "y" },
    feature_transform := { transformers :=
      [{ stage_name := "num", classname := "sklearn.preprocessing.StandardScaler",
         params := [], columns := ["x"] }] },
    cls_config := [("classname", "sklearn.svm.SVC"), ("probability", "True")],
    cross_val := { scores := ["roc_auc"], cv := 5 },
    output_metric := "out/metric.json", model_path := "out/model.pkl" }

/-- A concrete, fully successful environment: both reads return `dEx`,
preparation splits off column `y` as the boolean target, the classifier
predicts the positive probability equal to feature `x`, and every external
call succeeds. -/
def envOk : Env :=
  { cwd := "/repo",
    readCsv := fun _ => Except.ok dEx,
    cleanData := fun d _ => d,
    featureTargetSplit := fun d _ =>
      ({ columns := ["x"], rows := d.rows.map (fun r => [r.getD 0 0]) },
       d.rows.map (fun r => r.getD 1 0 == 1)),
    crossValidate := fun _ _ _ _ _ => Except.ok [],
    fitPipeline := fun p _ _ => Except.ok { base := p, state := 1 },
    predictProba := fun _ d => d.rows.map (fun r => [1 - r.getD 0 0, r.getD 0 0]),
    openWrite := fun _ => Except.ok (),
    dumpPickle := fun _ => Except.ok (),
    renderFloat := fun _ => "1.0" }

/-- The same environment except that opening the metric file for writing
fails, while the model write would still succeed. -/
def envMetricFail : Env :=
  { envOk with openWrite := fun _ => Except.error (Err.io "disk full") }

/-! ## Theorems -/

/-- Claim C3: for every configuration the built pipeline has exactly two
top-level stages in fixed order — the composite feature-transform stage
first and the terminal classifier second — and the Nth configured
`TransformSpec` is always the Nth entry of the feature-transform stage,
resolved from its classname, constructed with its params and bound to its
column subset. -/
theorem buildPipeline_structure (cfg : TrainConfig) (n : Nat) :
    (buildPipeline cfg).steps.length = 2
    ∧ (∃ ct, (buildPipeline cfg).steps[0]? =
        some ("feature_transform", PipelineStage.featureTransform ct)
      ∧ (∃ e, (buildPipeline cfg).steps[1]? = some ("cls", PipelineStage.classifier e))
      ∧ ct.transformers[n]? =
          (cfg.feature_transform.transformers[n]?).map
            (fun t => { stage_name := t.stage_name
                        est := resolveAndConstruct t.classname t.params
                        cols := t.columns })) := by
  refine ⟨rfl, buildColumnTransformer cfg, rfl, ⟨buildClassifier cfg, rfl⟩, ?_⟩
  simp [buildColumnTransformer]

/-- Claim C7: the terminal classifier is constructed from the resolved
classname and the configuration's remaining fields with `classname` removed:
`classname` is never among the constructor keyword parameters, and the
parameters passed are exactly the configured entries other than
`classname`. -/
theorem buildClassifier_strips_classname (cfg : TrainConfig) :
    (buildClassifier cfg).classname = (cfg.cls_config.lookup "classname").getD ""
    ∧ "classname" ∉ (buildClassifier cfg).kwargs.map Prod.fst
    ∧ ∀ q, q ∈ (buildClassifier cfg).kwargs ↔ (q ∈ cfg.cls_config ∧ q.1 ≠ "classname") := by
  refine ⟨rfl, ?_, ?_⟩
  · simp [buildClassifier, resolveAndConstruct, dictPop, List.mem_map, List.mem_filter]
  · intro q
    simp [buildClassifier, resolveAndConstruct, dictPop, List.mem_filter]

/-- Claim C4: the built feature-transform stage uses the `remainder = drop`
policy: its transformed output has exactly one derived column group per
configured `TransformSpec` (nothing is passed through), and the output
depends only on the columns bound by the specs — two datasets agreeing on
every bound column subset transform identically, so unlisted raw columns
never reach the output. -/
theorem ct_drops_unlisted_columns (apply : Estimator → Dataset → List (List Val))
    (cfg : TrainConfig) (d : Dataset) :
    (buildColumnTransformer cfg).remainder = Remainder.drop
    ∧ (ctTransform apply (buildColumnTransformer cfg) d).length =
        cfg.feature_transform.transformers.length
    ∧ ∀ d2, (∀ t ∈ cfg.feature_transform.transformers,
          selectCols d t.columns = selectCols d2 t.columns) →
        ctTransform apply (buildColumnTransformer cfg) d =
          ctTransform apply (buildColumnTransformer cfg) d2 := by
  refine ⟨rfl, by simp [ctTransform, buildColumnTransformer], ?_⟩
  intro d2 h
  simp only [ctTransform, buildColumnTransformer, List.map_map]
  refine congrArg (fun l => l ++ _) (List.map_congr_left ?_)
  intro t ht
  simp only [Function.comp]
  rw [h t ht]

/-- Witness for C4 at a concrete input: a dataset with columns A, B, C, one
spec over column A alone, and a second dataset differing in B and C. -/
theorem ct_drops_unlisted_columns_witness :
    ctTransform (fun _ ds => ds.rows)
        (buildColumnTransformer
          { data_config := { path_to_train := "t", path_to_test := "s",
                             unique_values_limit := 0, target_variable := "y" },
            feature_transform := { transformers :=
              [{ stage_name := "st", classname := "c", params := [], columns := ["A"] }] },
            cls_config := [], cross_val := { scores := [], cv := 2 },
            output_metric := "m", model_path := "p" })
        { columns := ["A", "B", "C"], rows := [[1, 2, 3]] } =
      ctTransform (fun _ ds => ds.rows)
        (buildColumnTransformer
          { data_config := { path_to_train := "t", path_to_test := "s",
                             unique_values_limit := 0, target_variable := "y" },
            feature_transform := { transformers :=
              [{ stage_name := "st", classname := "c", params := [], columns := ["A"] }] },
            cls_config := [], cross_val := { scores := [], cv := 2 },
            output_metric := "m", model_path := "p" })
        { columns := ["A", "B", "C"], rows := [[1, 5, 7]] } :=
  (ct_drops_unlisted_columns (fun _ ds => ds.rows) _ _).2.2 _ (by decide)

/-! Helper lemmas for the ROC-AUC bounds. -/

theorem pairScore_nonneg (p n : Val) : 0 ≤ pairScore p n := by
  unfold pairScore
  split_ifs <;> norm_num

theorem pairScore_le_one (p n : Val) : pairScore p n ≤ 1 := by
  unfold pairScore
  split_ifs <;> norm_num

theorem sum_pairScore_nonneg (p : Val) (neg : List Val) :
    0 ≤ (neg.map (fun n => pairScore p n)).sum := by
  induction neg with
  | nil => simp
  | cons n ns ih =>
      simp only [List.map_cons, List.sum_cons]
      have h := pairScore_nonneg p n
      linarith

theorem sum_pairScore_le (p : Val) (neg : List Val) :
    (neg.map (fun n => pairScore p n)).sum ≤ (neg.length : Val) := by
  induction neg with
  | nil => simp
  | cons n ns ih =>
      simp only [List.map_cons, List.sum_cons, List.length_cons]
      have h := pairScore_le_one p n
      push_cast
      linarith

theorem aucNum_nonneg (pos neg : List Val) : 0 ≤ aucNum pos neg := by
  unfold aucNum
  induction pos with
  | nil => simp
  | cons p ps ih =>
      simp only [List.map_cons, List.sum_cons]
      have h := sum_pairScore_nonneg p neg
      linarith

theorem aucNum_le (pos neg : List Val) :
    aucNum pos neg ≤ (pos.length : Val) * (neg.length : Val) := by
  unfold aucNum
  induction pos with
  | nil => simp
  | cons p ps ih =>
      simp only [List.map_cons, List.sum_cons, List.length_cons]
      have h := sum_pairScore_le p neg
      push_cast
      push_cast at ih
      nlinarith [ih, h]

theorem posScores_len_zero_iff :
    ∀ (ys : List Bool) (ss : List Val), ys.length ≤ ss.length →
      ((posScores ys ss).length = 0 ↔ true ∉ ys)
  | [], ss, _ => by simp [posScores]
  | y :: ys, [], h => by simp at h
  | y :: ys, s :: ss, h => by
      have ih := posScores_len_zero_iff ys ss (by simpa using h)
      cases y
      · simpa [posScores, List.filter_cons] using ih
      · simp [posScores, List.filter_cons]

theorem negScores_len_zero_iff :
    ∀ (ys : List Bool) (ss : List Val), ys.length ≤ ss.length →
      ((negScores ys ss).length = 0 ↔ false ∉ ys)
  | [], ss, _ => by simp [negScores]
  | y :: ys, [], h => by simp at h
  | y :: ys, s :: ss, h => by
      have ih := negScores_len_zero_iff ys ss (by simpa using h)
      cases y
      · simp [negScores, List.filter_cons]
      · simpa [negScores, List.filter_cons] using ih

/-- Claim C5: for any evaluation whose test target holds at least two
distinct classes, the computed ROC-AUC is a value in `[0, 1]` inclusive;
when the target holds fewer than two distinct classes, evaluation fails
with a `DataError` instead of returning a value. -/
theorem rocAucScore_range (yTrue : List Bool) (yScore : List Val)
    (hlen : yTrue.length = yScore.length) :
    ((true ∈ yTrue ∧ false ∈ yTrue) →
       ∃ v, rocAucScore yTrue yScore = Except.ok v ∧ 0 ≤ v ∧ v ≤ 1)
    ∧ (¬ (true ∈ yTrue ∧ false ∈ yTrue) →
       rocAucScore yTrue yScore = Except.error DataErr.singleClass) := by
  have hle : yTrue.length ≤ yScore.length := le_of_eq hlen
  constructor
  · rintro ⟨ht, hf⟩
    have hpos : ¬ (posScores yTrue yScore).length = 0 := by
      rw [posScores_len_zero_iff yTrue yScore hle]
      exact fun h => h ht
    have hneg : ¬ (negScores yTrue yScore).length = 0 := by
      rw [negScores_len_zero_iff yTrue yScore hle]
      exact fun h => h hf
    have hP : (0 : Val) < ((posScores yTrue yScore).length : Val) := by
      exact_mod_cast Nat.pos_of_ne_zero hpos
    have hN : (0 : Val) < ((negScores yTrue yScore).length : Val) := by
      exact_mod_cast Nat.pos_of_ne_zero hneg
    refine ⟨_, by rw [rocAucScore, if_neg (by tauto)], ?_, ?_⟩
    · exact div_nonneg (aucNum_nonneg _ _) (le_of_lt (mul_pos hP hN))
    · rw [div_le_one (mul_pos hP hN)]
      exact aucNum_le _ _
  · intro h
    rw [rocAucScore, if_pos]
    rcases Decidable.not_and_iff_or_not.mp h with ht | hf
    · exact Or.inl ((posScores_len_zero_iff yTrue yScore hle).mpr ht)
    · exact Or.inr ((negScores_len_zero_iff yTrue yScore hle).mpr hf)

/-- Witness for C5 at concrete inputs: a two-class target evaluates to a
value in range, a one-class target fails with the single-class error. -/
theorem rocAucScore_range_witness :
    (∃ v, rocAucScore [true, false] [1, 0] = Except.ok v ∧ 0 ≤ v ∧ v ≤ 1)
    ∧ rocAucScore [true, true] [1, 0]
        = Except.error DataErr.singleClass :=
  ⟨(rocAucScore_range [true, false] [1, 0] (by decide)).1 (by decide),
   (rocAucScore_range [true, true] [1, 0] (by decide)).2 (by decide)⟩

/-! Helper lemmas for the filesystem model. -/

theorem fsMakedirs_mem (fs : FileSystem) (d : String) : d ∈ (fsMakedirs fs d).dirs := by
  unfold fsMakedirs
  split_ifs with h
  · exact h
  · exact List.mem_cons_self d fs.dirs

theorem fsMakedirs_of_mem (fs : FileSystem) (d : String) (h : d ∈ fs.dirs) :
    fsMakedirs fs d = fs := by
  unfold fsMakedirs
  exact if_pos h

theorem fsSetFile_dirs (fs : FileSystem) (p c : String) : (fsSetFile fs p c).dirs = fs.dirs :=
  rfl

theorem fsSetFile_idem (fs : FileSystem) (p c : String) :
    fsSetFile (fsSetFile fs p c) p c = fsSetFile fs p c := by
  simp [fsSetFile, List.filter_cons, List.filter_filter]

/-- Claim C9: metric persistence is an idempotent pure overwrite — writing
the same metric twice to the same path yields an identical filesystem, the
file then holds exactly the single record with key "ROC AUC", the metric
path's parent directory is created, and the result does not depend on what
was previously stored at the path (replace, never append). -/
theorem persistMetric_spec (render : Val → String) (fs : FileSystem) (path : String)
    (v : Val) :
    persistMetric render (persistMetric render fs path v) path v =
        persistMetric render fs path v
    ∧ fsReadFile (persistMetric render fs path v) path = some (jsonDumpMetric render v)
    ∧ dirname path ∈ (persistMetric render fs path v).dirs
    ∧ ∀ fs2, fs2.dirs = fs.dirs →
        fs2.files.filter (fun q => q.1 ≠ path) = fs.files.filter (fun q => q.1 ≠ path) →
        persistMetric render fs2 path v = persistMetric render fs path v := by
  refine ⟨?_, ?_, ?_, ?_⟩
  · unfold persistMetric
    rw [fsMakedirs_of_mem _ _ (by rw [fsSetFile_dirs]; exact fsMakedirs_mem fs (dirname path))]
    exact fsSetFile_idem _ _ _
  · simp [persistMetric, fsReadFile, fsSetFile]
  · rw [persistMetric, fsSetFile_dirs]
    exact fsMakedirs_mem fs (dirname path)
  · intro fs2 hdirs hfiles
    have hfiles2 : List.filter (fun q => !decide (q.1 = path)) fs2.files =
        List.filter (fun q => !decide (q.1 = path)) fs.files := by
      simpa [ne_eq, decide_not] using hfiles
    simp only [persistMetric, fsSetFile, fsMakedirs, hdirs]
    split_ifs with h
    · simp [hfiles2, hdirs]
    · simp [hfiles2, hdirs]

/-- Witness for C9 at a concrete input: the prior content at the metric path
does not influence the persisted result. -/
theorem persistMetric_spec_witness :
    persistMetric (fun _ => "0.5")
        { files := [("out/m.json", "junk")], dirs := [] } "out/m.json" (1/2) =
      persistMetric (fun _ => "0.5") { files := [], dirs := [] } "out/m.json" (1/2) :=
  (persistMetric_spec (fun _ => "0.5") { files := [], dirs := [] } "out/m.json" (1/2)).2.2.2
    { files := [("out/m.json", "junk")], dirs := [] } (by decide) (by decide)

/-- Exhaustive shape analysis of a run: exactly one of the eight outcomes
occurs — failure at either read, at cross-validation, at the final fit, at
evaluation, at the metric write, at the model write, or full success — and
in each case the event trace and result are as listed. -/
theorem runTrain_shape (env : Env) (cfg : TrainConfig) :
    (∃ e, env.readCsv (trainPathOf env cfg) = Except.error e ∧
       runTrain env cfg = (traceReadTrainFail env cfg, Except.error e))
    ∨ (∃ td e, env.readCsv (trainPathOf env cfg) = Except.ok td ∧
       env.readCsv (testPathOf env cfg) = Except.error e ∧
       runTrain env cfg = (traceReadTestFail env cfg, Except.error e))
    ∨ (∃ td sd e, env.readCsv (trainPathOf env cfg) = Except.ok td ∧
       env.readCsv (testPathOf env cfg) = Except.ok sd ∧
       env.crossValidate (buildPipeline cfg) (cvPrepOf env cfg td sd).1
         (cvPrepOf env cfg td sd).2 cfg.cross_val.scores cfg.cross_val.cv = Except.error e ∧
       runTrain env cfg = (traceCv env cfg td sd, Except.error e))
    ∨ (∃ td sd r e, env.readCsv (trainPathOf env cfg) = Except.ok td ∧
       env.readCsv (testPathOf env cfg) = Except.ok sd ∧
       env.crossValidate (buildPipeline cfg) (cvPrepOf env cfg td sd).1
         (cvPrepOf env cfg td sd).2 cfg.cross_val.scores cfg.cross_val.cv = Except.ok r ∧
       env.fitPipeline (buildPipeline cfg) (trPrepOf env cfg td).1 (trPrepOf env cfg td).2 =
         Except.error e ∧
       runTrain env cfg = (traceFit env cfg td sd, Except.error e))
    ∨ (∃ td sd r fitted de, env.readCsv (trainPathOf env cfg) = Except.ok td ∧
       env.readCsv (testPathOf env cfg) = Except.ok sd ∧
       env.crossValidate (buildPipeline cfg) (cvPrepOf env cfg td sd).1
         (cvPrepOf env cfg td sd).2 cfg.cross_val.scores cfg.cross_val.cv = Except.ok r ∧
       env.fitPipeline (buildPipeline cfg) (trPrepOf env cfg td).1 (trPrepOf env cfg td).2 =
         Except.ok fitted ∧
       rocAucScore (tePrepOf env cfg sd).2 (probaOf env cfg fitted sd) = Except.error de ∧
       runTrain env cfg = (traceEval env cfg td sd fitted, Except.error (Err.data de)))
    ∨ (∃ td sd r fitted auc e, env.readCsv (trainPathOf env cfg) = Except.ok td ∧
       env.readCsv (testPathOf env cfg) = Except.ok sd ∧
       env.crossValidate (buildPipeline cfg) (cvPrepOf env cfg td sd).1
         (cvPrepOf env cfg td sd).2 cfg.cross_val.scores cfg.cross_val.cv = Except.ok r ∧
       env.fitPipeline (buildPipeline cfg) (trPrepOf env cfg td).1 (trPrepOf env cfg td).2 =
         Except.ok fitted ∧
       rocAucScore (tePrepOf env cfg sd).2 (probaOf env cfg fitted sd) = Except.ok auc ∧
       env.openWrite (metricPathOf env cfg) = Except.error e ∧
       runTrain env cfg = (traceMetricOpen env cfg td sd fitted, Except.error e))
    ∨ (∃ td sd r fitted auc e, env.readCsv (trainPathOf env cfg) = Except.ok td ∧
       env.readCsv (testPathOf env cfg) = Except.ok sd ∧
       env.crossValidate (buildPipeline cfg) (cvPrepOf env cfg td sd).1
         (cvPrepOf env cfg td sd).2 cfg.cross_val.scores cfg.cross_val.cv = Except.ok r ∧
       env.fitPipeline (buildPipeline cfg) (trPrepOf env cfg td).1 (trPrepOf env cfg td).2 =
         Except.ok fitted ∧
       rocAucScore (tePrepOf env cfg sd).2 (probaOf env cfg fitted sd) = Except.ok auc ∧
       env.openWrite (metricPathOf env cfg) = Except.ok () ∧
       env.dumpPickle (modelPathOf env cfg) = Except.error e ∧
       runTrain env cfg = (traceMetricWritten env cfg td sd fitted auc, Except.error e))
    ∨ (∃ td sd r fitted auc, env.readCsv (trainPathOf env cfg) = Except.ok td ∧
       env.readCsv (testPathOf env cfg) = Except.ok sd ∧
       env.crossValidate (buildPipeline cfg) (cvPrepOf env cfg td sd).1
         (cvPrepOf env cfg td sd).2 cfg.cross_val.scores cfg.cross_val.cv = Except.ok r ∧
       env.fitPipeline (buildPipeline cfg) (trPrepOf env cfg td).1 (trPrepOf env cfg td).2 =
         Except.ok fitted ∧
       rocAucScore (tePrepOf env cfg sd).2 (probaOf env cfg fitted sd) = Except.ok auc ∧
       env.openWrite (metricPathOf env cfg) = Except.ok () ∧
       env.dumpPickle (modelPathOf env cfg) = Except.ok () ∧
       runTrain env cfg = (traceDone env cfg td sd fitted auc, Except.ok auc)) := by
  unfold runTrain
  cases h1 : env.readCsv (trainPathOf env cfg) with
  | error e => exact Or.inl ⟨e, rfl, rfl⟩
  | ok td =>
    cases h2 : env.readCsv (testPathOf env cfg) with
    | error e => exact Or.inr (Or.inl ⟨td, e, rfl, rfl, rfl⟩)
    | ok sd =>
      cases h3 : env.crossValidate (buildPipeline cfg) (cvPrepOf env cfg td sd).1
          (cvPrepOf env cfg td sd).2 cfg.cross_val.scores cfg.cross_val.cv with
      | error e =>
          refine Or.inr (Or.inr (Or.inl ⟨td, sd, e, rfl, rfl, h3, ?_⟩))
          simp only [h3]
      | ok r =>
        cases h4 : env.fitPipeline (buildPipeline cfg) (trPrepOf env cfg td).1
            (trPrepOf env cfg td).2 with
        | error e =>
            refine Or.inr (Or.inr (Or.inr (Or.inl ⟨td, sd, r, e, rfl, rfl, h3, h4, ?_⟩)))
            simp only [h3, h4]
        | ok fitted =>
          cases h5 : rocAucScore (tePrepOf env cfg sd).2 (probaOf env cfg fitted sd) with
          | error de =>
              refine Or.inr (Or.inr (Or.inr (Or.inr (Or.inl
                ⟨td, sd, r, fitted, de, rfl, rfl, h3, h4, h5, ?_⟩))))
              simp only [h3, h4, h5]
          | ok auc =>
            cases h6 : env.openWrite (metricPathOf env cfg) with
            | error e =>
                refine Or.inr (Or.inr (Or.inr (Or.inr (Or.inr (Or.inl
                  ⟨td, sd, r, fitted, auc, e, rfl, rfl, h3, h4, h5, rfl, ?_⟩)))))
                simp only [h3, h4, h5]
            | ok u =>
              cases h7 : env.dumpPickle (modelPathOf env cfg) with
              | error e =>
                  refine Or.inr (Or.inr (Or.inr (Or.inr (Or.inr (Or.inr (Or.inl
                    ⟨td, sd, r, fitted, auc, e, rfl, rfl, h3, h4, h5, rfl, rfl, ?_⟩))))))
                  simp only [h3, h4, h5]
              | ok w =>
                  refine Or.inr (Or.inr (Or.inr (Or.inr (Or.inr (Or.inr (Or.inr
                    ⟨td, sd, r, fitted, auc, rfl, rfl, h3, h4, h5, rfl, rfl, ?_⟩))))))
                  simp only [h3, h4, h5]

theorem stagesOf_traceReadTrainFail (env : Env) (cfg : TrainConfig) :
    stagesOf (traceReadTrainFail env cfg) = [Stage.configLoaded, Stage.pipelineBuilt] := rfl

theorem stagesOf_traceReadTestFail (env : Env) (cfg : TrainConfig) :
    stagesOf (traceReadTestFail env cfg) = [Stage.configLoaded, Stage.pipelineBuilt] := rfl

theorem stagesOf_traceCv (env : Env) (cfg : TrainConfig) (td sd : Dataset) :
    stagesOf (traceCv env cfg td sd) =
      [Stage.configLoaded, Stage.pipelineBuilt, Stage.dataLoaded] := rfl

theorem stagesOf_traceFit (env : Env) (cfg : TrainConfig) (td sd : Dataset) :
    stagesOf (traceFit env cfg td sd) =
      [Stage.configLoaded, Stage.pipelineBuilt, Stage.dataLoaded, Stage.crossValidated] := rfl

theorem stagesOf_traceEval (env : Env) (cfg : TrainConfig) (td sd : Dataset)
    (fitted : FittedPipeline) :
    stagesOf (traceEval env cfg td sd fitted) =
      [Stage.configLoaded, Stage.pipelineBuilt, Stage.dataLoaded, Stage.crossValidated,
       Stage.trained] := rfl

theorem stagesOf_traceMetricOpen (env : Env) (cfg : TrainConfig) (td sd : Dataset)
    (fitted : FittedPipeline) :
    stagesOf (traceMetricOpen env cfg td sd fitted) =
      [Stage.configLoaded, Stage.pipelineBuilt, Stage.dataLoaded, Stage.crossValidated,
       Stage.trained, Stage.evaluated] := rfl

theorem stagesOf_traceMetricWritten (env : Env) (cfg : TrainConfig) (td sd : Dataset)
    (fitted : FittedPipeline) (auc : Val) :
    stagesOf (traceMetricWritten env cfg td sd fitted auc) =
      [Stage.configLoaded, Stage.pipelineBuilt, Stage.dataLoaded, Stage.crossValidated,
       Stage.trained, Stage.evaluated] := rfl

theorem stagesOf_traceDone (env : Env) (cfg : TrainConfig) (td sd : Dataset)
    (fitted : FittedPipeline) (auc : Val) :
    stagesOf (traceDone env cfg td sd fitted auc) = canonicalStages := rfl

/-- Claim C8: the run's stages execute in the strictly linear order
ConfigLoaded, PipelineBuilt, DataLoaded, CrossValidated, Trained, Evaluated,
Persisted, Done: the completed stages of every run form a prefix of that
order, the full order is reached exactly when the run succeeds, and the
pipeline-built stage precedes every other event — in particular every data
read — while any failure aborts all remaining stages. -/
theorem run_lifecycle (env : Env) (cfg : TrainConfig) :
    (∃ rest, canonicalStages = stagesOf (runTrain env cfg).1 ++ rest)
    ∧ ((runTrain env cfg).2.isOk = true ↔ stagesOf (runTrain env cfg).1 = canonicalStages)
    ∧ (∃ evs, (runTrain env cfg).1 =
         Event.stage Stage.configLoaded :: Event.stage Stage.pipelineBuilt :: evs) := by
  rcases runTrain_shape env cfg with
    ⟨e, h1, hrun⟩ | ⟨td, e, h1, h2, hrun⟩ | ⟨td, sd, e, h1, h2, h3, hrun⟩
    | ⟨td, sd, r, e, h1, h2, h3, h4, hrun⟩
    | ⟨td, sd, r, fitted, de, h1, h2, h3, h4, h5, hrun⟩
    | ⟨td, sd, r, fitted, auc, e, h1, h2, h3, h4, h5, h6, hrun⟩
    | ⟨td, sd, r, fitted, auc, e, h1, h2, h3, h4, h5, h6, h7, hrun⟩
    | ⟨td, sd, r, fitted, auc, h1, h2, h3, h4, h5, h6, h7, hrun⟩ <;>
  rw [hrun] <;>
  exact ⟨⟨_, rfl⟩,
    by simp [stagesOf_traceReadTrainFail, stagesOf_traceReadTestFail, stagesOf_traceCv,
      stagesOf_traceFit, stagesOf_traceEval, stagesOf_traceMetricOpen,
      stagesOf_traceMetricWritten, stagesOf_traceDone, canonicalStages, Except.isOk,
      Except.toBool],
    ⟨_, rfl⟩⟩

/-- Claim C1: with both configured paths loading successfully, the dataset
handed to cross-validation is exactly the row-wise union of the loaded train
and test frames passed through the data preparation, and that union is used
only there: the final fit receives the prepared train frame and the final
evaluation receives the prepared test frame. -/
theorem cv_gets_union_only (env : Env) (cfg : TrainConfig) (td sd : Dataset)
    (h1 : env.readCsv (trainPathOf env cfg) = Except.ok td)
    (h2 : env.readCsv (testPathOf env cfg) = Except.ok sd) :
    (∀ p f t, Event.cvCall p f t ∈ (runTrain env cfg).1 →
        p = buildPipeline cfg ∧ f = (cvPrepOf env cfg td sd).1 ∧ t = (cvPrepOf env cfg td sd).2)
    ∧ (∀ p f t, Event.fitCall p f t ∈ (runTrain env cfg).1 →
        p = buildPipeline cfg ∧ f = (trPrepOf env cfg td).1 ∧ t = (trPrepOf env cfg td).2)
    ∧ (∀ fp f, Event.probaCall fp f ∈ (runTrain env cfg).1 → f = (tePrepOf env cfg sd).1) := by
  rcases runTrain_shape env cfg with
    ⟨e, h1x, hrun⟩ | ⟨td2, e, h1x, h2x, hrun⟩ | ⟨td2, sd2, e, h1x, h2x, h3, hrun⟩
    | ⟨td2, sd2, r, e, h1x, h2x, h3, h4, hrun⟩
    | ⟨td2, sd2, r, fitted, de, h1x, h2x, h3, h4, h5, hrun⟩
    | ⟨td2, sd2, r, fitted, auc, e, h1x, h2x, h3, h4, h5, h6, hrun⟩
    | ⟨td2, sd2, r, fitted, auc, e, h1x, h2x, h3, h4, h5, h6, h7, hrun⟩
    | ⟨td2, sd2, r, fitted, auc, h1x, h2x, h3, h4, h5, h6, h7, hrun⟩
  · cases h1.symm.trans h1x
  · cases h2.symm.trans h2x
  all_goals
    obtain rfl : td2 = td := by
      have h := h1x.symm.trans h1
      injection h
    obtain rfl : sd2 = sd := by
      have h := h2x.symm.trans h2
      injection h
  all_goals rw [hrun]
  all_goals
    refine ⟨fun p f t hmem => ?_, fun p f t hmem => ?_, fun fp f hmem => ?_⟩ <;>
      simp [traceCv, traceFit, traceEval, traceMetricOpen, traceMetricWritten,
        traceDone] at hmem <;>
      first
      | exact hmem
      | exact hmem.2

/-- Claim C6: when a run returns a metric value, that value is the ROC-AUC
of the second column (index 1) of the class-probability matrix predicted by
the fitted pipeline on the prepared test features, scored against the
prepared test target — the positive-class column choice is the fixed
convention of the code, not configurable. -/
theorem metric_from_second_proba_column (env : Env) (cfg : TrainConfig)
    (td sd : Dataset) (fitted : FittedPipeline) (v : Val)
    (h1 : env.readCsv (trainPathOf env cfg) = Except.ok td)
    (h2 : env.readCsv (testPathOf env cfg) = Except.ok sd)
    (hfit : env.fitPipeline (buildPipeline cfg) (trPrepOf env cfg td).1
        (trPrepOf env cfg td).2 = Except.ok fitted)
    (hok : (runTrain env cfg).2 = Except.ok v) :
    rocAucScore (tePrepOf env cfg sd).2
        ((env.predictProba fitted (tePrepOf env cfg sd).1).map (fun r => r.getD 1 0)) =
      Except.ok v := by
  rcases runTrain_shape env cfg with
    ⟨e, h1x, hrun⟩ | ⟨td2, e, h1x, h2x, hrun⟩ | ⟨td2, sd2, e, h1x, h2x, h3, hrun⟩
    | ⟨td2, sd2, r, e, h1x, h2x, h3, h4, hrun⟩
    | ⟨td2, sd2, r, fitted2, de, h1x, h2x, h3, h4, h5, hrun⟩
    | ⟨td2, sd2, r, fitted2, auc, e, h1x, h2x, h3, h4, h5, h6, hrun⟩
    | ⟨td2, sd2, r, fitted2, auc, e, h1x, h2x, h3, h4, h5, h6, h7, hrun⟩
    | ⟨td2, sd2, r, fitted2, auc, h1x, h2x, h3, h4, h5, h6, h7, hrun⟩ <;>
  rw [hrun] at hok <;>
  cases hok
  obtain rfl : td2 = td := by
    have h := h1x.symm.trans h1
    injection h
  obtain rfl : sd2 = sd := by
    have h := h2x.symm.trans h2
    injection h
  obtain rfl : fitted2 = fitted := by
    have h := h4.symm.trans hfit
    injection h
  exact h5

/-- Claim C10: cross-validation receives the built, unfitted pipeline and
does not feed anything back into it (scikit-learn fits per-fold clones, so
the call is modelled as leaving the pipeline untouched) — the pipeline
handed to the final fit is exactly the pipeline built from configuration,
on the prepared train split; at most one fit hand-over happens per run
(exactly one when the run succeeds); and the persisted model is precisely
the result of that single fit on the train split, unaffected by the
cross-validation pass over the union data. -/
theorem model_from_single_fit (env : Env) (cfg : TrainConfig) (td sd : Dataset)
    (h1 : env.readCsv (trainPathOf env cfg) = Except.ok td)
    (h2 : env.readCsv (testPathOf env cfg) = Except.ok sd) :
    (∀ p f t, Event.fitCall p f t ∈ (runTrain env cfg).1 →
        p = buildPipeline cfg ∧ f = (trPrepOf env cfg td).1 ∧ t = (trPrepOf env cfg td).2)
    ∧ (runTrain env cfg).1.countP isFitCall ≤ 1
    ∧ (∀ mp fp, Event.pickleWrite mp fp ∈ (runTrain env cfg).1 →
        mp = modelPathOf env cfg ∧
        env.fitPipeline (buildPipeline cfg) (trPrepOf env cfg td).1 (trPrepOf env cfg td).2 =
          Except.ok fp)
    ∧ ((runTrain env cfg).2.isOk = true → (runTrain env cfg).1.countP isFitCall = 1) := by
  rcases runTrain_shape env cfg with
    ⟨e, h1x, hrun⟩ | ⟨td2, e, h1x, h2x, hrun⟩ | ⟨td2, sd2, e, h1x, h2x, h3, hrun⟩
    | ⟨td2, sd2, r, e, h1x, h2x, h3, h4, hrun⟩
    | ⟨td2, sd2, r, fitted, de, h1x, h2x, h3, h4, h5, hrun⟩
    | ⟨td2, sd2, r, fitted, auc, e, h1x, h2x, h3, h4, h5, h6, hrun⟩
    | ⟨td2, sd2, r, fitted, auc, e, h1x, h2x, h3, h4, h5, h6, h7, hrun⟩
    | ⟨td2, sd2, r, fitted, auc, h1x, h2x, h3, h4, h5, h6, h7, hrun⟩
  · cases h1.symm.trans h1x
  · cases h2.symm.trans h2x
  all_goals
    obtain rfl : td2 = td := by
      have h := h1x.symm.trans h1
      injection h
    obtain rfl : sd2 = sd := by
      have h := h2x.symm.trans h2
      injection h
  all_goals rw [hrun]
  · refine ⟨fun p f t hmem => ?_, ?_, fun mp fp hmem => ?_, fun hok => ?_⟩
    · simp [traceCv] at hmem
    · exact Nat.zero_le 1
    · simp [traceCv] at hmem
    · simp [Except.isOk, Except.toBool] at hok
  · refine ⟨fun p f t hmem => ?_, ?_, fun mp fp hmem => ?_, fun hok => ?_⟩
    · simp [traceFit, traceCv] at hmem
      exact hmem
    · exact Nat.le_refl 1
    · simp [traceFit, traceCv] at hmem
    · simp [Except.isOk, Except.toBool] at hok
  · refine ⟨fun p f t hmem => ?_, ?_, fun mp fp hmem => ?_, fun hok => ?_⟩
    · simp [traceEval, traceFit, traceCv] at hmem
      exact hmem
    · exact Nat.le_refl 1
    · simp [traceEval, traceFit, traceCv] at hmem
    · simp [Except.isOk, Except.toBool] at hok
  · refine ⟨fun p f t hmem => ?_, ?_, fun mp fp hmem => ?_, fun hok => ?_⟩
    · simp [traceMetricOpen, traceEval, traceFit, traceCv] at hmem
      exact hmem
    · exact Nat.le_refl 1
    · simp [traceMetricOpen, traceEval, traceFit, traceCv] at hmem
    · simp [Except.isOk, Except.toBool] at hok
  · refine ⟨fun p f t hmem => ?_, ?_, fun mp fp hmem => ?_, fun hok => ?_⟩
    · simp [traceMetricWritten, traceMetricOpen, traceEval, traceFit, traceCv] at hmem
      exact hmem
    · exact Nat.le_refl 1
    · simp [traceMetricWritten, traceMetricOpen, traceEval, traceFit, traceCv] at hmem
    · simp [Except.isOk, Except.toBool] at hok
  · refine ⟨fun p f t hmem => ?_, ?_, fun mp fp hmem => ?_, fun hok => ?_⟩
    · simp [traceDone, traceMetricWritten, traceMetricOpen, traceEval, traceFit,
        traceCv] at hmem
      exact hmem
    · exact Nat.le_refl 1
    · simp [traceDone, traceMetricWritten, traceMetricOpen, traceEval, traceFit,
        traceCv] at hmem
      obtain ⟨hmp, hfp⟩ := hmem
      subst hfp
      exact ⟨hmp, h4⟩
    · rfl

/-- Counterexample to claim C2 as stated: in a run where opening the metric
file fails although the model write would succeed, the model artifact is
never written — the metric write and the model write are not independent,
the metric failure aborts the run before the model write is attempted. -/
theorem metric_failure_prevents_model_write :
    envMetricFail.dumpPickle (modelPathOf envMetricFail cfgEx) = Except.ok ()
    ∧ (runTrain envMetricFail cfgEx).1.countP isPickleWrite = 0
    ∧ (runTrain envMetricFail cfgEx).2 = Except.error (Err.io "disk full") := by
  refine ⟨rfl, ?_, ?_⟩ <;> rfl

/-- Claim C2 as amended: the two persistence writes are ordered — metric
first, model second.  A failure opening the metric file aborts the run
before any model write is attempted, a failure of the model write also makes
the run fail, and a successful run performs exactly one metric write and one
model write. -/
theorem persist_ordered_failures (env : Env) (cfg : TrainConfig) :
    ((env.openWrite (metricPathOf env cfg)).isOk = false →
        (runTrain env cfg).1.countP isPickleWrite = 0
        ∧ (runTrain env cfg).2.isOk = false)
    ∧ ((env.dumpPickle (modelPathOf env cfg)).isOk = false →
        (runTrain env cfg).2.isOk = false)
    ∧ ((runTrain env cfg).2.isOk = true →
        (runTrain env cfg).1.countP isFsWrite = 1
        ∧ (runTrain env cfg).1.countP isPickleWrite = 1) := by
  rcases runTrain_shape env cfg with
    ⟨e, h1x, hrun⟩ | ⟨td2, e, h1x, h2x, hrun⟩ | ⟨td2, sd2, e, h1x, h2x, h3, hrun⟩
    | ⟨td2, sd2, r, e, h1x, h2x, h3, h4, hrun⟩
    | ⟨td2, sd2, r, fitted, de, h1x, h2x, h3, h4, h5, hrun⟩
    | ⟨td2, sd2, r, fitted, auc, e, h1x, h2x, h3, h4, h5, h6, hrun⟩
    | ⟨td2, sd2, r, fitted, auc, e, h1x, h2x, h3, h4, h5, h6, h7, hrun⟩
    | ⟨td2, sd2, r, fitted, auc, h1x, h2x, h3, h4, h5, h6, h7, hrun⟩
  all_goals rw [hrun]
  · exact ⟨fun _ => ⟨rfl, rfl⟩, fun _ => rfl,
      fun hok => by simp [Except.isOk, Except.toBool] at hok⟩
  · exact ⟨fun _ => ⟨rfl, rfl⟩, fun _ => rfl,
      fun hok => by simp [Except.isOk, Except.toBool] at hok⟩
  · exact ⟨fun _ => ⟨rfl, rfl⟩, fun _ => rfl,
      fun hok => by simp [Except.isOk, Except.toBool] at hok⟩
  · exact ⟨fun _ => ⟨rfl, rfl⟩, fun _ => rfl,
      fun hok => by simp [Except.isOk, Except.toBool] at hok⟩
  · exact ⟨fun _ => ⟨rfl, rfl⟩, fun _ => rfl,
      fun hok => by simp [Except.isOk, Except.toBool] at hok⟩
  · exact ⟨fun _ => ⟨rfl, rfl⟩, fun _ => rfl,
      fun hok => by simp [Except.isOk, Except.toBool] at hok⟩
  · refine ⟨fun h => ?_, fun _ => rfl,
      fun hok => by simp [Except.isOk, Except.toBool] at hok⟩
    rw [h6] at h
    simp [Except.isOk, Except.toBool] at h
  · refine ⟨fun h => ?_, fun h => ?_, fun _ => ⟨rfl, rfl⟩⟩
    · rw [h6] at h
      simp [Except.isOk, Except.toBool] at h
    · rw [h7] at h
      simp [Except.isOk, Except.toBool] at h

/-- Witness for C8 at a concrete input: the successful concrete run
completes the full canonical stage order. -/
theorem run_lifecycle_witness :
    stagesOf (runTrain envOk cfgEx).1 = canonicalStages :=
  (run_lifecycle envOk cfgEx).2.1.mp rfl

/-- Witness for C1 at a concrete input: the concrete run's cross-validation
hand-over carries the prepared union data. -/
theorem cv_gets_union_only_witness :
    buildPipeline cfgEx = buildPipeline cfgEx
    ∧ (cvPrepOf envOk cfgEx dEx dEx).1 = (cvPrepOf envOk cfgEx dEx dEx).1
    ∧ (cvPrepOf envOk cfgEx dEx dEx).2 = (cvPrepOf envOk cfgEx dEx dEx).2 :=
  (cv_gets_union_only envOk cfgEx dEx dEx rfl rfl).1 (buildPipeline cfgEx)
    (cvPrepOf envOk cfgEx dEx dEx).1 (cvPrepOf envOk cfgEx dEx dEx).2 (by decide)

/-- Witness for C6 at a concrete input: the concrete run's reported metric
equals the ROC-AUC of the second probability column on the test split. -/
theorem metric_from_second_proba_column_witness :
    rocAucScore (tePrepOf envOk cfgEx dEx).2
        ((envOk.predictProba { base := buildPipeline cfgEx, state := 1 }
            (tePrepOf envOk cfgEx dEx).1).map (fun r => r.getD 1 0)) =
      Except.ok 1 :=
  metric_from_second_proba_column envOk cfgEx dEx dEx
    { base := buildPipeline cfgEx, state := 1 } 1 rfl rfl rfl (by with_unfolding_all rfl)

/-- Witness for C10 at a concrete input: the successful concrete run hands
the pipeline to fit exactly once. -/
theorem model_from_single_fit_witness :
    (runTrain envOk cfgEx).1.countP isFitCall = 1 :=
  (model_from_single_fit envOk cfgEx dEx dEx rfl rfl).2.2.2 rfl

/-- Witness for the amended C2 at a concrete input: with the metric write
failing, no model write happens and the run fails. -/
theorem persist_ordered_failures_witness :
    (runTrain envMetricFail cfgEx).1.countP isPickleWrite = 0
    ∧ (runTrain envMetricFail cfgEx).2.isOk = false :=
  (persist_ordered_failures envMetricFail cfgEx).1 rfl

end MLProject
